import Mathlib

/-!
Verification development for `streamlit-analytics2` (file
`src/streamlit_analytics2/main.py`).

Modelling conventions:
* Calendar dates (`str(datetime.date.today())`, ISO-8601 strings) are
  modelled as integer day ordinals (`Date := Int`).  ISO-8601 rendering is
  injective and monotone, so equality tests (`!=` in `_track_user`) and the
  chronological / lexicographic order used by the per-day invariant are
  preserved exactly; `datetime.timedelta(days=1)` becomes subtraction of 1.
* Timestamps (`datetime.datetime.now()`) are modelled as integers (seconds);
  `(now - last).total_seconds()` becomes integer subtraction.
* The module-level `counts` dict is modelled two ways, matching how the code
  itself uses it: as the typed record `Counts` for the tracker operations
  (`reset_counts`, `_track_user`), which access fixed keys, and as a generic
  association list `List (String × α)` for the key-shallow JSON merge in
  `start_tracking`, which is value-agnostic.  A parsed JSON object has
  unique keys (`json.loads` keeps the last duplicate), so `List.lookup` is
  unambiguous on it.
* Python exceptions are modelled by `Option` results (an uncaught exception,
  e.g. `IndexError` from `[-1]` on an empty list) and by explicit case
  analysis on a `ReadResult` (the `try/except` of the snapshot load).
* `st.session_state` is a record of `Option` fields: `none` models "key not
  present in session state".
* Widget entry points (`st.button`, ..., `st.sidebar.color_picker`) are
  modelled as an attribute table `String → WidgetFn`; `WidgetFn.original n`
  is the module-load original saved in `_orig_*`, `WidgetFn.wrapped n` the
  tracking wrapper `_wrap_*(_orig_*)` installed by `start_tracking`.
-/

namespace SA2

/-- Calendar date as a day ordinal (see module conventions). -/
abbrev Date := Int

/-- The `counts["per_day"]` sub-dict: three parallel lists. -/
structure PerDay where
  days : List Date
  pageviews : List Nat
  script_runs : List Nat
  deriving Repr, DecidableEq

/-- Per-widget usage records; their inner structure is irrelevant to the
tracker and lifecycle operations modelled here (only `reset_counts` writes
the key, to an empty dict). -/
abbrev Widgets := List (String × List (String × Nat))

/-- The module-level `counts` dict, typed view.  Its keys are exactly the
seven keys the module ever writes: `loaded_from_firestore` (set at module
load in `tracker.py`) plus the six keys written by `reset_counts`. -/
structure Counts where
  total_pageviews : Nat
  total_script_runs : Nat
  total_time_seconds : Int
  per_day : PerDay
  widgets : Widgets
  loaded_from_firestore : Bool
  start_time : String
  deriving Repr, DecidableEq

/-- `st.session_state` restricted to the keys this module touches.
`none` = key absent.  `state_dic` is carried to model the misspelled guard
`if "state_dic" not in st.session_state` in `start_tracking`; no code ever
assigns it, so its value type is irrelevant. -/
structure Session where
  user_tracked : Option Bool
  state_dic : Option Unit
  state_dict : Option (List (String × Nat))
  last_time : Option Int
  deriving Repr, DecidableEq

/-- `reset_counts()` (main.py lines 30-38): overwrites the six statistics
keys; `yesterday = date.today() - timedelta(days=1)` is `today - 1`.
`now_str` is `datetime.now().strftime(...)`. -/
def reset_counts (today : Date) (now_str : String) (c : Counts) : Counts :=
  let yesterday := today - 1
  { c with
    total_pageviews := 0
    total_script_runs := 0
    total_time_seconds := 0
    per_day := { days := [yesterday], pageviews := [0], script_runs := [0] }
    widgets := []
    start_time := now_str }

/-- `lst[-1] += 1` on a Python list: `none` models the `IndexError` raised
on an empty list. -/
def incLast : List Nat → Option (List Nat)
  | [] => none
  | [x] => some [x + 1]
  | x :: y :: xs => (incLast (y :: xs)).map (fun l => x :: l)

/-- `_track_user()` (main.py lines 88-105).  Steps, in source order:
append a fresh zero day-entry when `per_day["days"][-1] != today`;
`total_script_runs += 1`; `per_day["script_runs"][-1] += 1`; accumulate
elapsed time into `total_time_seconds` and refresh `last_time`; on the
session's first run (`not st.session_state.user_tracked`) set
`user_tracked`, `total_pageviews += 1`, `per_day["pageviews"][-1] += 1`.
`none` models an uncaught exception (empty list indexing / missing session
key). -/
def track_user (today : Date) (now : Int) (c : Counts) (ss : Session) :
    Option (Counts × Session) :=
  match c.per_day.days.getLast? with
  | none => none
  | some lastDay =>
    let pd :=
      if lastDay ≠ today then
        { days := c.per_day.days ++ [today]
          pageviews := c.per_day.pageviews ++ [0]
          script_runs := c.per_day.script_runs ++ [0] : PerDay }
      else c.per_day
    let c1 := { c with total_script_runs := c.total_script_runs + 1 }
    match incLast pd.script_runs with
    | none => none
    | some sr =>
      let c2 := { c1 with per_day := { pd with script_runs := sr } }
      match ss.last_time with
      | none => none
      | some lt =>
        let c3 := { c2 with
          total_time_seconds := c2.total_time_seconds + (now - lt) }
        let ss1 := { ss with last_time := some now }
        match ss1.user_tracked with
        | none => none
        | some tracked =>
          if tracked then some (c3, ss1)
          else
            match incLast c3.per_day.pageviews with
            | none => none
            | some pv =>
              some ({ c3 with
                        total_pageviews := c3.total_pageviews + 1
                        per_day := { c3.per_day with pageviews := pv } },
                    { ss1 with user_tracked := some true })

/-- The "Reset session state" block of `start_tracking` (main.py lines
152-158), embedded exactly as written: the second guard tests the key
`"state_dic"` but assigns the key `"state_dict"`. -/
def session_reset (now : Int) (ss : Session) : Session :=
  let s1 := if ss.user_tracked = none then { ss with user_tracked := some false } else ss
  let s2 := if s1.state_dic = none then { s1 with state_dict := some [] } else s1
  if s2.last_time = none then { s2 with last_time := some now } else s2

/-- A freshly created session (no keys present yet). -/
def freshSession : Session :=
  { user_tracked := none, state_dic := none, state_dict := none, last_time := none }

/-- Result of reading + parsing the snapshot file in `start_tracking`:
`fileNotFound` models `FileNotFoundError` from `Path.read_text`,
`parseError` any exception from `json.loads` (or the merge expression),
`ok` a successfully parsed JSON object (an association list with unique
keys). -/
inductive ReadResult (α : Type) where
  | fileNotFound
  | parseError
  | ok (json_counts : List (String × α))
  deriving Repr, DecidableEq

/-- The merge expression of `start_tracking` (main.py line 136):
`counts.update({k: json_counts[k] for k in json_counts if k in counts})`.
Each key already in `counts` takes the snapshot value when the snapshot has
that key; keys only in the snapshot are filtered out by the comprehension;
insertion order of `counts` is preserved. -/
def dictUpdate (counts json_counts : List (String × α)) : List (String × α) :=
  counts.map (fun kv =>
    match json_counts.lookup kv.1 with
    | some v => (kv.1, v)
    | none => kv)

/-- The `load_from_json` block of `start_tracking` (main.py lines 127-150):
the whole read/parse/merge is wrapped in `try/except FileNotFoundError /
except Exception`, both handlers only log, so every failure leaves `counts`
unchanged and nothing propagates (the function is total). -/
def load_from_json_step (counts : List (String × α)) (r : ReadResult α) :
    List (String × α) :=
  match r with
  | .fileNotFound => counts
  | .parseError => counts
  | .ok j => dictUpdate counts j

/-- The `save_to_json` block of `stop_tracking` (main.py lines 305-314):
`json.dump(counts, f)` writes the full store; re-reading the file parses
back to the same key/value object (JSON round-trips the
JSON-representable `counts`). -/
def save_to_json_step (counts : List (String × α)) : ReadResult α :=
  .ok counts

/-- The `per_day` projection of the shallow merge (main.py line 136): when
the parsed snapshot has a `per_day` key its value replaces the in-memory
one wholesale, otherwise the in-memory value is kept. -/
def mergedPerDay (pd : PerDay) (snapshotPerDay : Option PerDay) : PerDay :=
  snapshotPerDay.getD pd

/-- The documented `per_day` invariant: the three sequences have equal
length and `days` is strictly increasing. -/
def pdInv (pd : PerDay) : Prop :=
  pd.pageviews.length = pd.days.length ∧
  pd.script_runs.length = pd.days.length ∧
  pd.days.Chain' (· < ·)

instance (pd : PerDay) : Decidable (pdInv pd) :=
  inferInstanceAs (Decidable (_ = _ ∧ _ = _ ∧ List.Chain' _ _))

/-- Identity of a widget entry point: the module-load original saved in
`_orig_<name>` (main.py lines 45-86), or the tracking wrapper
`_wrap_*(_orig_<name>)` installed by `start_tracking`. -/
inductive WidgetFn where
  | original (name : String)
  | wrapped (name : String)
  deriving Repr, DecidableEq

/-- The widget entry points this module monkey-patches: 15 on `st`
(main.py lines 162-182) and 14 on `st.sidebar` (lines 184-197;
`chat_input` has no sidebar variant). -/
def widgetNames : List String :=
  ["button", "checkbox", "radio", "selectbox", "multiselect", "slider",
   "select_slider", "text_input", "number_input", "text_area", "date_input",
   "time_input", "file_uploader", "color_picker", "chat_input",
   "sidebar.button", "sidebar.checkbox", "sidebar.radio", "sidebar.selectbox",
   "sidebar.multiselect", "sidebar.slider", "sidebar.select_slider",
   "sidebar.text_input", "sidebar.number_input", "sidebar.text_area",
   "sidebar.date_input", "sidebar.time_input", "sidebar.file_uploader",
   "sidebar.color_picker"]

/-- The `st` / `st.sidebar` attribute table, restricted to widget entry
points. -/
abbrev StFns := String → WidgetFn

/-- The monkey-patching block of `start_tracking` (main.py lines 162-203):
each patched entry point becomes the wrapper over the saved original
(`st.button = _wrap_button(_orig_button)`, ...); other attributes are
untouched. -/
def patch_widgets (f : StFns) : StFns :=
  fun n => if n ∈ widgetNames then .wrapped n else f n

/-- The "Reset streamlit functions" block of `stop_tracking` (main.py lines
248-289): each patched entry point is assigned the module-load original
(`st.button = _orig_button`, ...); other attributes are untouched. -/
def restore_widgets (f : StFns) : StFns :=
  fun n => if n ∈ widgetNames then .original n else f n

/-- Python substring test `needle in hay` on strings, on the underlying
character lists: scan every suffix for `needle` as a prefix. -/
def charsStartWith : List Char → List Char → Bool
  | [], _ => true
  | _ :: _, [] => false
  | c :: cs, d :: ds => c == d && charsStartWith cs ds

/-- See `charsStartWith`: CPython `in` for `str` is contiguous-substring
containment. -/
def charsContain (needle hay : List Char) : Bool :=
  match hay with
  | [] => charsStartWith needle []
  | _ :: t => charsStartWith needle hay || charsContain needle t

/-- `needle in hay` for Python strings. -/
def pyStrIn (needle hay : String) : Bool :=
  charsContain needle.toList hay.toList

/-- The dashboard gate of `stop_tracking` (main.py lines 320-321):
`"analytics" in query_params and "on" in query_params["analytics"]`.
`st.query_params` maps a parameter name to its (string) value, so the
second conjunct is a substring test. -/
def shouldRenderDashboard (qp : List (String × String)) : Bool :=
  match qp.lookup "analytics" with
  | some v => pyStrIn "on" v
  | none => false

/-- Process state visible to the lifecycle functions: the `counts` dict,
this session's `st.session_state`, and the widget entry-point table. -/
structure AppState where
  counts : Counts
  session : Session
  fns : StFns

/-- `start_tracking` (main.py lines 108-223) with no firestore key file and
no `load_from_json` (the snapshot load is modelled separately by
`load_from_json_step`): reset the session keys, run `_track_user`, install
the widget wrappers.  `none` models an exception escaping `_track_user`. -/
def start_tracking (today : Date) (now : Int) (s : AppState) : Option AppState :=
  let ss := session_reset now s.session
  match track_user today now s.counts ss with
  | none => none
  | some (c, ss2) =>
    some { counts := c, session := ss2, fns := patch_widgets s.fns }

/-- `stop_tracking` (main.py lines 226-323) with no firestore key file and
no `save_to_json` (the snapshot save is modelled separately by
`save_to_json_step`): restore the original widget entry points, then
render the dashboard when the query-parameter gate fires.  The returned
`Bool` records whether `display.show_results` was called. -/
def stop_tracking (qp : List (String × String)) (s : AppState) : AppState × Bool :=
  ({ s with fns := restore_widgets s.fns }, shouldRenderDashboard qp)

/-- The `track` context manager (main.py lines 326-359): `start_tracking`,
then the `with`-body, then `stop_tracking`.  `none` models an exception in
`start_tracking` (the body then never runs). -/
def track (today : Date) (now : Int) (qp : List (String × String))
    (body : AppState → AppState) (s : AppState) : Option AppState :=
  match start_tracking today now s with
  | none => none
  | some s1 => some (stop_tracking qp (body s1)).1

/-- `_track_user` calls in sequence, threading state; the list gives each
call's `(today, now)`.  The whole run fails if any call fails. -/
def track_user_runs (calls : List (Date × Int)) (c : Counts) (ss : Session) :
    Option (Counts × Session) :=
  match calls with
  | [] => some (c, ss)
  | (today, now) :: rest =>
    match track_user today now c ss with
    | none => none
    | some (c2, ss2) => track_user_runs rest c2 ss2

/-- Preconditions under which `_track_user` cannot raise: the three
`per_day` lists are non-empty (true from `reset_counts` on) and the two
session keys it reads are present (true after `session_reset`). -/
def Ready (c : Counts) (ss : Session) : Prop :=
  c.per_day.days ≠ [] ∧ c.per_day.pageviews ≠ [] ∧ c.per_day.script_runs ≠ [] ∧
  ss.last_time.isSome ∧ ss.user_tracked.isSome

instance (c : Counts) (ss : Session) : Decidable (Ready c ss) :=
  inferInstanceAs (Decidable (_ ≠ _ ∧ _ ≠ _ ∧ _ ≠ _ ∧ _ ∧ _))

theorem incLast_append_singleton (xs : List Nat) (n : Nat) :
    incLast (xs ++ [n]) = some (xs ++ [n + 1]) := by
  induction xs with
  | nil => rfl
  | cons x xs ih =>
    cases xs with
    | nil => rfl
    | cons y ys => simp [incLast] at ih ⊢; simp [ih]

theorem exists_incLast (l : List Nat) (h : l ≠ []) :
    ∃ l2, incLast l = some l2 := by
  induction l with
  | nil => exact absurd rfl h
  | cons x xs ih =>
    cases xs with
    | nil => exact ⟨[x + 1], rfl⟩
    | cons y ys =>
      obtain ⟨l2, hl2⟩ := ih (by simp)
      exact ⟨x :: l2, by simp [incLast, hl2]⟩

theorem incLast_length {l l2 : List Nat} (h : incLast l = some l2) :
    l2.length = l.length := by
  induction l generalizing l2 with
  | nil => simp [incLast] at h
  | cons x xs ih =>
    cases xs with
    | nil => simp [incLast] at h; simp [← h]
    | cons y ys =>
      simp [incLast] at h
      obtain ⟨l3, hl3, rfl⟩ := h
      simp [ih hl3]

theorem incLast_ne_nil {l l2 : List Nat} (h : incLast l = some l2) : l2 ≠ [] := by
  cases l with
  | nil => simp [incLast] at h
  | cons x xs =>
    intro hnil
    have := incLast_length h
    simp [hnil] at this

/-- Characterization of `_track_user` on a run whose date differs from the
last recorded day: a fresh entry is appended to all three `per_day` lists
with counter value 0, and only then are that run's increments applied (so
the new `script_runs` entry ends at 1, the new `pageviews` entry at 1
exactly when the session was not yet tracked). -/
theorem track_user_new_day (today : Date) (now t : Int) (c : Counts) (ss : Session)
    (lastDay : Date) (b : Bool)
    (hlast : c.per_day.days.getLast? = some lastDay) (hne : lastDay ≠ today)
    (hlt : ss.last_time = some t) (hut : ss.user_tracked = some b) :
    track_user today now c ss = some
      ({ c with
          total_pageviews := c.total_pageviews + (if b then 0 else 1)
          total_script_runs := c.total_script_runs + 1
          total_time_seconds := c.total_time_seconds + (now - t)
          per_day := { days := c.per_day.days ++ [today]
                       pageviews := c.per_day.pageviews ++ [if b then 0 else 1]
                       script_runs := c.per_day.script_runs ++ [1] } },
       { ss with user_tracked := some true, last_time := some now }) := by
  cases b <;>
    simp [track_user, hlast, hne, hlt, hut, incLast_append_singleton]

/-- Characterization of `_track_user` on a run whose date equals the last
recorded day: no entry is appended, the last `script_runs` entry (and, on a
session's first run, the last `pageviews` entry) is incremented in place. -/
theorem track_user_same_day (today : Date) (now t : Int) (c : Counts) (ss : Session)
    (b : Bool) (sr2 pv2 : List Nat)
    (hlast : c.per_day.days.getLast? = some today)
    (hsr : incLast c.per_day.script_runs = some sr2)
    (hpv : incLast c.per_day.pageviews = some pv2)
    (hlt : ss.last_time = some t) (hut : ss.user_tracked = some b) :
    track_user today now c ss = some
      ({ c with
          total_pageviews := c.total_pageviews + (if b then 0 else 1)
          total_script_runs := c.total_script_runs + 1
          total_time_seconds := c.total_time_seconds + (now - t)
          per_day := { c.per_day with
                       pageviews := if b then c.per_day.pageviews else pv2
                       script_runs := sr2 } },
       { ss with user_tracked := some true, last_time := some now }) := by
  cases b <;>
    simp [track_user, hlast, hsr, hpv, hlt, hut]

/-- One `_track_user` call from a `Ready` state succeeds, adds 1 to
`total_script_runs`, adds 1 to `total_pageviews` exactly when the session
was not yet tracked, marks the session tracked, refreshes `last_time`, and
re-establishes `Ready`. -/
theorem track_user_step (today : Date) (now t : Int) (c : Counts) (ss : Session)
    (b : Bool)
    (hd : c.per_day.days ≠ []) (hp : c.per_day.pageviews ≠ [])
    (hs : c.per_day.script_runs ≠ [])
    (hlt : ss.last_time = some t) (hut : ss.user_tracked = some b) :
    ∃ c2 ss2, track_user today now c ss = some (c2, ss2) ∧
      c2.total_script_runs = c.total_script_runs + 1 ∧
      c2.total_pageviews = c.total_pageviews + (if b then 0 else 1) ∧
      ss2.user_tracked = some true ∧ ss2.last_time = some now ∧
      c2.per_day.days ≠ [] ∧ c2.per_day.pageviews ≠ [] ∧
      c2.per_day.script_runs ≠ [] := by
  obtain ⟨lastDay, hlast⟩ : ∃ d, c.per_day.days.getLast? = some d := by
    cases hgl : c.per_day.days.getLast? with
    | none => exact absurd (List.getLast?_eq_none_iff.1 hgl) hd
    | some d => exact ⟨d, rfl⟩
  by_cases hdy : lastDay = today
  · subst hdy
    obtain ⟨sr2, hsr⟩ := exists_incLast _ hs
    obtain ⟨pv2, hpv⟩ := exists_incLast _ hp
    refine ⟨_, _, track_user_same_day lastDay now t c ss b sr2 pv2 hlast hsr hpv hlt hut,
      rfl, rfl, rfl, rfl, hd, ?_, incLast_ne_nil hsr⟩
    cases b with
    | true => exact hp
    | false => exact incLast_ne_nil hpv
  · exact ⟨_, _, track_user_new_day today now t c ss lastDay b hlast hdy hlt hut,
      rfl, rfl, rfl, rfl, by simp, by simp, by simp⟩

/-- Runs after the session is already tracked: each adds 1 to
`total_script_runs` and leaves `total_pageviews` unchanged. -/
theorem track_user_runs_tracked (calls : List (Date × Int)) (c : Counts)
    (ss : Session) (t : Int)
    (hd : c.per_day.days ≠ []) (hp : c.per_day.pageviews ≠ [])
    (hs : c.per_day.script_runs ≠ [])
    (hlt : ss.last_time = some t) (hut : ss.user_tracked = some true) :
    ∃ c2 ss2, track_user_runs calls c ss = some (c2, ss2) ∧
      c2.total_script_runs = c.total_script_runs + calls.length ∧
      c2.total_pageviews = c.total_pageviews := by
  induction calls generalizing c ss t with
  | nil => exact ⟨c, ss, rfl, by simp, rfl⟩
  | cons call rest ih =>
    obtain ⟨c2, ss2, heq, hruns, hpv, hut2, hlt2, hd2, hp2, hs2⟩ :=
      track_user_step call.1 call.2 t c ss true hd hp hs hlt hut
    obtain ⟨c3, ss3, heq3, hruns3, hpv3⟩ := ih c2 ss2 call.2 hd2 hp2 hs2 hlt2 hut2
    refine ⟨c3, ss3, ?_, ?_, ?_⟩
    · simpa [track_user_runs, heq] using heq3
    · simp [hruns3, hruns]; omega
    · simp [hpv3, hpv]

theorem lookup_dictUpdate (c j : List (String × α)) (k : String) :
    (dictUpdate c j).lookup k =
      (c.lookup k).map (fun v => (j.lookup k).getD v) := by
  induction c with
  | nil => rfl
  | cons kv rest ih =>
    obtain ⟨a, b⟩ := kv
    by_cases hk : k = a
    · subst hk
      cases hj : j.lookup k <;> simp [dictUpdate, List.lookup, hj]
    · have hba : (k == a) = false := by simp [hk]
      cases hj : j.lookup a <;>
        simp only [dictUpdate, List.map_cons, hj, List.lookup, hba] <;>
        simpa [dictUpdate] using ih

theorem dictUpdate_keys (c j : List (String × α)) :
    (dictUpdate c j).map Prod.fst = c.map Prod.fst := by
  induction c with
  | nil => rfl
  | cons kv rest ih =>
    cases hj : j.lookup kv.1 <;>
      simp only [dictUpdate, List.map_cons, hj] <;>
      simpa [dictUpdate] using ih

/-- C3: in the snapshot merge of `start_tracking`, a key present in both
the in-memory store and the loaded snapshot takes the snapshot's value, the
store's key set is unchanged (so a key present only in the snapshot is
ignored and stays absent), and a key present only in the in-memory store
keeps its current value. -/
theorem claim3_merge_semantics {α : Type} (c j : List (String × α))
    (k1 k2 k3 : String) (v1 w1 v3 : α)
    (h1c : c.lookup k1 = some v1) (h1j : j.lookup k1 = some w1)
    (h2c : c.lookup k2 = none)
    (h3c : c.lookup k3 = some v3) (h3j : j.lookup k3 = none) :
    (load_from_json_step c (.ok j)).lookup k1 = some w1 ∧
    (load_from_json_step c (.ok j)).map Prod.fst = c.map Prod.fst ∧
    (load_from_json_step c (.ok j)).lookup k2 = none ∧
    (load_from_json_step c (.ok j)).lookup k3 = some v3 := by
  refine ⟨?_, dictUpdate_keys c j, ?_, ?_⟩ <;>
    simp [load_from_json_step, lookup_dictUpdate, h1c, h1j, h2c, h3c, h3j]

theorem claim3_merge_semantics_witness :
    (load_from_json_step [("a", 1), ("c", 3)]
        (.ok [("a", 10), ("b", 2)])).lookup "a" = some 10 ∧
    (load_from_json_step [("a", 1), ("c", 3)]
        (.ok [("a", 10), ("b", 2)])).map Prod.fst =
      ([("a", 1), ("c", 3)] : List (String × Nat)).map Prod.fst ∧
    (load_from_json_step [("a", 1), ("c", 3)]
        (.ok [("a", 10), ("b", 2)])).lookup "b" = none ∧
    (load_from_json_step [("a", 1), ("c", 3)]
        (.ok [("a", 10), ("b", 2)])).lookup "c" = some 3 :=
  claim3_merge_semantics [("a", 1), ("c", 3)] [("a", 10), ("b", 2)]
    "a" "b" "c" 1 10 3 (by decide) (by decide) (by decide) (by decide) (by decide)

/-- C4: the snapshot-load step of `start_tracking` leaves the in-memory
store unchanged both when the file is missing (`FileNotFoundError`) and
when its content fails to parse (any other exception); the handlers only
log, so no exception propagates — the embedded load step is a total
function. -/
theorem claim4_load_error_handling {α : Type} (c : List (String × α)) :
    load_from_json_step c ReadResult.fileNotFound = c ∧
    load_from_json_step c ReadResult.parseError = c :=
  ⟨rfl, rfl⟩

/-- C5: saving the store with `stop_tracking`'s `save_to_json` block and
loading the snapshot back with `start_tracking`'s `load_from_json` block
gives, for every key present in both stores, the saved store's value. -/
theorem claim5_roundtrip {α : Type} (c1 c2 : List (String × α)) (k : String)
    (v w : α) (h1 : c1.lookup k = some v) (h2 : c2.lookup k = some w) :
    (load_from_json_step c2 (save_to_json_step c1)).lookup k = some v := by
  simp [load_from_json_step, save_to_json_step, lookup_dictUpdate, h1, h2]

theorem claim5_roundtrip_witness :
    (load_from_json_step [("x", 5), ("y", 6)]
        (save_to_json_step [("x", 42), ("z", 7)])).lookup "x" = some 42 :=
  claim5_roundtrip [("x", 42), ("z", 7)] [("x", 5), ("y", 6)] "x" 42 5
    (by decide) (by decide)

/-- C1: from the session state set up by `start_tracking`'s session-reset
block on a fresh session (`user_tracked = false`), any sequence of N
`_track_user` calls adds exactly N to `total_script_runs` and exactly
`min N 1` to `total_pageviews` — the single pageview increment happens on
the first call, which flips `user_tracked`, and never again. -/
theorem claim1_pageviews_once_per_session (calls : List (Date × Int))
    (c : Counts) (now0 : Int)
    (hd : c.per_day.days ≠ []) (hp : c.per_day.pageviews ≠ [])
    (hs : c.per_day.script_runs ≠ []) :
    ∃ c2 ss2,
      track_user_runs calls c (session_reset now0 freshSession) = some (c2, ss2) ∧
      c2.total_script_runs = c.total_script_runs + calls.length ∧
      c2.total_pageviews = c.total_pageviews + min calls.length 1 := by
  cases calls with
  | nil => exact ⟨c, _, rfl, by simp, by simp⟩
  | cons call rest =>
    obtain ⟨c2, ss2, heq, hruns, hpv, hut2, hlt2, hd2, hp2, hs2⟩ :=
      track_user_step call.1 call.2 now0 c (session_reset now0 freshSession)
        false hd hp hs rfl rfl
    obtain ⟨c3, ss3, heq3, hruns3, hpv3⟩ :=
      track_user_runs_tracked rest c2 ss2 call.2 hd2 hp2 hs2 hlt2 hut2
    refine ⟨c3, ss3, ?_, ?_, ?_⟩
    · simpa [track_user_runs, heq] using heq3
    · simp [hruns3, hruns]; omega
    · simp [hpv3, hpv]

/-- A concrete counter store reachable right after `reset_counts` plus some
activity; used to instantiate witnesses. -/
def countsEx : Counts :=
  { total_pageviews := 7, total_script_runs := 20, total_time_seconds := 0,
    per_day := { days := [4], pageviews := [2], script_runs := [3] },
    widgets := [], loaded_from_firestore := false, start_time := "start" }

theorem claim1_pageviews_once_per_session_witness :
    ∃ c2 ss2,
      track_user_runs [(5, 10), (5, 11), (6, 12)] countsEx
          (session_reset 0 freshSession) = some (c2, ss2) ∧
      c2.total_script_runs = countsEx.total_script_runs +
        ([(5, 10), (5, 11), (6, 12)] : List (Date × Int)).length ∧
      c2.total_pageviews = countsEx.total_pageviews +
        min ([(5, 10), (5, 11), (6, 12)] : List (Date × Int)).length 1 :=
  claim1_pageviews_once_per_session [(5, 10), (5, 11), (6, 12)] countsEx 0
    (by decide) (by decide) (by decide)

/-- A session whose pageview was already counted (`user_tracked = true`). -/
def sessionTracked : Session :=
  { user_tracked := some true, state_dic := none, state_dict := none,
    last_time := some 0 }

/-- A store whose `per_day.days` contains today's date (day 2) in a
non-final position — reachable, e.g., by loading a snapshot whose last day
entry postdates today. -/
def countsC2 : Counts :=
  { total_pageviews := 0, total_script_runs := 0, total_time_seconds := 0,
    per_day := { days := [2, 3], pageviews := [0, 0], script_runs := [0, 0] },
    widgets := [], loaded_from_firestore := false, start_time := "" }

/-- C2 counterexample: today (day 2) is present in `per_day.days = [2, 3]`,
yet `_track_user` appends a new day entry — the code compares today only
against the last entry, not against the whole sequence, so the claim's
"present implies no append" direction is false. -/
theorem claim2_counterexample :
    (2 : Date) ∈ countsC2.per_day.days ∧
    (track_user 2 0 countsC2 sessionTracked).map
        (fun p => p.1.per_day.days) = some [2, 3, 2] ∧
    ([2, 3, 2] : List Date) ≠ countsC2.per_day.days := by decide

/-- C2 amended: `_track_user` appends a fresh day entry with zero counters
to all three `per_day` sequences — before applying that call's increments,
so the new `script_runs` entry ends at 0+1 and the new `pageviews` entry at
0+1 exactly on a session's first run — if and only if today differs from
the LAST entry of `per_day.days`; when today equals the last entry nothing
is appended. -/
theorem claim2_day_rollover (today : Date) (now t : Int) (c : Counts)
    (ss : Session) (lastDay : Date) (b : Bool) (sr2 pv2 : List Nat)
    (hlast : c.per_day.days.getLast? = some lastDay)
    (hsr : incLast c.per_day.script_runs = some sr2)
    (hpv : incLast c.per_day.pageviews = some pv2)
    (hlt : ss.last_time = some t) (hut : ss.user_tracked = some b) :
    (lastDay ≠ today →
      ∃ c2 ss2, track_user today now c ss = some (c2, ss2) ∧
        c2.per_day.days = c.per_day.days ++ [today] ∧
        c2.per_day.script_runs = c.per_day.script_runs ++ [0 + 1] ∧
        c2.per_day.pageviews = c.per_day.pageviews ++
          [if b then 0 else 0 + 1]) ∧
    (lastDay = today →
      ∃ c2 ss2, track_user today now c ss = some (c2, ss2) ∧
        c2.per_day.days = c.per_day.days) := by
  constructor
  · intro hne
    exact ⟨_, _, track_user_new_day today now t c ss lastDay b hlast hne hlt hut,
      rfl, rfl, rfl⟩
  · intro heq
    subst heq
    exact ⟨_, _,
      track_user_same_day lastDay now t c ss b sr2 pv2 hlast hsr hpv hlt hut, rfl⟩

theorem claim2_day_rollover_witness :
    ((4 : Date) ≠ 5 →
      ∃ c2 ss2, track_user 5 9 countsEx sessionTracked = some (c2, ss2) ∧
        c2.per_day.days = countsEx.per_day.days ++ [5] ∧
        c2.per_day.script_runs = countsEx.per_day.script_runs ++ [0 + 1] ∧
        c2.per_day.pageviews = countsEx.per_day.pageviews ++
          [if true then 0 else 0 + 1]) ∧
    ((4 : Date) = 5 →
      ∃ c2 ss2, track_user 5 9 countsEx sessionTracked = some (c2, ss2) ∧
        c2.per_day.days = countsEx.per_day.days) :=
  claim2_day_rollover 5 9 0 countsEx sessionTracked 4 true [4] [3]
    (by decide) (by decide) (by decide) (by decide) (by decide)

/-- C10: `reset_counts` writes exactly the six statistics keys — the
counters to 0, `per_day` to a single entry for yesterday (today − 1, not
today), `widgets` to empty, `start_time` to the current timestamp — and
leaves `loaded_from_firestore` (the only other key of the store) unchanged,
so a reset never re-enables the at-most-once remote load. -/
theorem claim10_reset_frame (today : Date) (now_str : String) (c : Counts) :
    (reset_counts today now_str c).loaded_from_firestore =
      c.loaded_from_firestore ∧
    (reset_counts today now_str c).total_pageviews = 0 ∧
    (reset_counts today now_str c).total_script_runs = 0 ∧
    (reset_counts today now_str c).total_time_seconds = 0 ∧
    (reset_counts today now_str c).widgets = [] ∧
    (reset_counts today now_str c).start_time = now_str ∧
    (reset_counts today now_str c).per_day =
      { days := [today - 1], pageviews := [0], script_runs := [0] } ∧
    today - 1 ≠ today := by
  refine ⟨rfl, rfl, rfl, rfl, rfl, rfl, rfl, by simp⟩

/-- A `per_day` value satisfying the documented invariant. -/
def goodPd : PerDay := { days := [1], pageviews := [0], script_runs := [0] }

/-- A `per_day` value violating the invariant (unequal lengths), as a
snapshot file can contain. -/
def badPd : PerDay := { days := [1], pageviews := [0, 0], script_runs := [0] }

/-- C7 counterexample, both failing operations at concrete inputs.  First,
the snapshot merge in `start_tracking` takes the snapshot's `per_day` value
wholesale and unvalidated, so loading a snapshot whose three sequences have
unequal lengths breaks the invariant.  Second, `_track_user` itself breaks
the invariant when today's date (day 2) is earlier than the last recorded
day: from the invariant-satisfying `days = [2, 3]` it appends day 2 after
day 3, and `[2, 3, 2]` is not strictly increasing. -/
theorem claim7_counterexample :
    (pdInv goodPd ∧ ¬ pdInv (mergedPerDay goodPd (some badPd))) ∧
    (pdInv countsC2.per_day ∧
      (track_user 2 0 countsC2 sessionTracked).map (fun p => p.1.per_day) =
        some { days := [2, 3, 2], pageviews := [0, 0, 0],
               script_runs := [0, 0, 1] } ∧
      ¬ pdInv { days := [2, 3, 2], pageviews := [0, 0, 0],
                script_runs := [0, 0, 1] : PerDay }) := by
  refine ⟨⟨⟨rfl, rfl, List.chain'_singleton _⟩, fun h => absurd h.1 (by decide)⟩,
    ⟨rfl, rfl, List.chain'_cons.2 ⟨by decide, List.chain'_singleton _⟩⟩,
    by decide, fun h => ?_⟩
  exact absurd (List.chain'_cons.1 (List.chain'_cons.1 h.2.2).2).1 (by decide)

/-- C7 amended: `reset_counts` establishes the `per_day` invariant (equal
lengths, strictly increasing days); `_track_user` preserves it provided the
current date is not earlier than the last recorded day; the snapshot merge
preserves it provided the snapshot's `per_day` value (when present) itself
satisfies it. -/
theorem claim7_per_day_invariant (today today2 : Date) (now_str : String)
    (c0 c : Counts) (now t : Int) (ss : Session) (lastDay : Date) (b : Bool)
    (pd : PerDay) (snap : Option PerDay)
    (hinv : pdInv c.per_day)
    (hlast : c.per_day.days.getLast? = some lastDay)
    (hle : lastDay ≤ today)
    (hlt : ss.last_time = some t) (hut : ss.user_tracked = some b)
    (hpd : pdInv pd) (hsnap : ∀ q ∈ snap, pdInv q) :
    pdInv (reset_counts today2 now_str c0).per_day ∧
    (∃ c2 ss2, track_user today now c ss = some (c2, ss2) ∧
      pdInv c2.per_day) ∧
    pdInv (mergedPerDay pd snap) := by
  obtain ⟨hlen1, hlen2, hchain⟩ := hinv
  have hdnil : c.per_day.days ≠ [] := by
    intro h; rw [h] at hlast; simp at hlast
  have hdpos : 0 < c.per_day.days.length := List.length_pos.2 hdnil
  refine ⟨⟨rfl, rfl, List.chain'_singleton _⟩, ?_, ?_⟩
  · by_cases hdy : lastDay = today
    · subst hdy
      obtain ⟨sr2, hsr⟩ := exists_incLast _
        (List.ne_nil_of_length_pos (hlen2 ▸ hdpos))
      obtain ⟨pv2, hpv⟩ := exists_incLast _
        (List.ne_nil_of_length_pos (hlen1 ▸ hdpos))
      refine ⟨_, _, track_user_same_day lastDay now t c ss b sr2 pv2
        hlast hsr hpv hlt hut, ?_, ?_, hchain⟩
      · cases b <;> simp [incLast_length hpv, hlen1]
      · simpa [incLast_length hsr] using hlen2
    · refine ⟨_, _, track_user_new_day today now t c ss lastDay b
        hlast hdy hlt hut, ?_, ?_, ?_⟩
      · simp [hlen1]
      · simp [hlen2]
      · refine List.chain'_append.2 ⟨hchain, List.chain'_singleton _, ?_⟩
        intro x hx y hy
        rw [hlast, Option.mem_some_iff] at hx
        simp only [List.head?_cons, Option.mem_some_iff] at hy
        subst hx; subst hy
        exact lt_of_le_of_ne hle hdy
  · cases snap with
    | none => exact hpd
    | some q => exact hsnap q rfl

theorem claim7_per_day_invariant_witness :
    pdInv (reset_counts 9 "t" countsEx).per_day ∧
    (∃ c2 ss2, track_user 5 9 countsEx sessionTracked = some (c2, ss2) ∧
      pdInv c2.per_day) ∧
    pdInv (mergedPerDay goodPd (some goodPd)) :=
  claim7_per_day_invariant 5 9 "t" countsEx countsEx 9 0 sessionTracked 4 true
    goodPd (some goodPd)
    ⟨rfl, rfl, List.chain'_singleton _⟩
    (by decide) (by decide) (by decide) (by decide)
    ⟨rfl, rfl, List.chain'_singleton _⟩
    (by intro q hq; rw [Option.mem_some_iff] at hq; subst hq;
        exact ⟨rfl, rfl, List.chain'_singleton _⟩)

/-- Contiguous-substring relation on strings — the meaning of Python's
`in` operator on `str` values, stated from the spec's words ("a URL
parameter `analytics=on`" would be the special case of the whole value). -/
def IsSubstr (needle hay : String) : Prop :=
  ∃ pre post, pre ++ needle.toList ++ post = hay.toList

theorem charsStartWith_iff (n : List Char) : ∀ h : List Char,
    charsStartWith n h = true ↔ ∃ post, n ++ post = h := by
  induction n with
  | nil => intro h; simp [charsStartWith]
  | cons c cs ih =>
    intro h
    cases h with
    | nil =>
      simp only [charsStartWith]
      constructor
      · intro hf; exact absurd hf (by simp)
      · rintro ⟨post, hpost⟩
        exact absurd hpost (List.cons_ne_nil _ _)
    | cons d ds =>
      simp only [charsStartWith, Bool.and_eq_true, beq_iff_eq, ih]
      constructor
      · rintro ⟨rfl, post, rfl⟩
        exact ⟨post, rfl⟩
      · rintro ⟨post, hpost⟩
        injection hpost with h1 h2
        exact ⟨h1, post, h2⟩

theorem charsContain_iff (n : List Char) : ∀ h : List Char,
    charsContain n h = true ↔ ∃ pre post, pre ++ n ++ post = h := by
  intro h
  induction h with
  | nil =>
    rw [charsContain, charsStartWith_iff]
    constructor
    · rintro ⟨post, hpost⟩
      exact ⟨[], post, hpost⟩
    · rintro ⟨pre, post, hp⟩
      rw [List.append_assoc, List.append_eq_nil] at hp
      exact ⟨post, by simp [hp.1, hp.2]⟩
  | cons d ds ih =>
    rw [charsContain]
    simp only [Bool.or_eq_true, charsStartWith_iff, ih]
    constructor
    · rintro (⟨post, hpost⟩ | ⟨pre, post, hpost⟩)
      · exact ⟨[], post, by simpa using hpost⟩
      · exact ⟨d :: pre, post, by simp [hpost]⟩
    · rintro ⟨pre, post, hp⟩
      cases pre with
      | nil => exact Or.inl ⟨post, by simpa using hp⟩
      | cons e pre =>
        injection hp with h1 h2
        exact Or.inr ⟨pre, post, h2⟩

/-- C6 counterexample: with query parameters `analytics=only` the value is
not `on`, yet `stop_tracking` renders the dashboard — the gate
`"on" in query_params["analytics"]` is a substring test on the value, not
an equality test. -/
theorem claim6_counterexample :
    (stop_tracking [("analytics", "only")]
      { counts := countsC2, session := sessionTracked,
        fns := fun n => WidgetFn.original n }).2 = true ∧
    ("only" : String) ≠ "on" :=
  ⟨rfl, by decide⟩

/-- C6 amended: `stop_tracking` renders the dashboard if and only if the
query parameters contain the parameter `analytics` whose value contains
`on` as a contiguous substring (so `analytics=on` renders it, but so does
e.g. `analytics=only`); with no `analytics` parameter it never renders. -/
theorem claim6_dashboard_gate (qp : List (String × String)) (s : AppState) :
    (stop_tracking qp s).2 = true ↔
      ∃ v, qp.lookup "analytics" = some v ∧ IsSubstr "on" v := by
  show shouldRenderDashboard qp = true ↔ _
  rw [shouldRenderDashboard]
  cases hq : qp.lookup "analytics" with
  | none => simp
  | some v => simp [pyStrIn, IsSubstr, charsContain_iff]

/-- C8: when the body of the `track` context manager completes,
`stop_tracking` runs after it and restores every monkey-patched widget
entry point to the module-load original; when the entry points before
`start_tracking` were those originals (as at module load), the
start/stop pair leaves every widget entry point equal to its pre-start
value. -/
theorem claim8_track_restores (today : Date) (now : Int)
    (qp : List (String × String)) (body : AppState → AppState)
    (s s2 : AppState)
    (horig : ∀ n ∈ widgetNames, s.fns n = WidgetFn.original n)
    (h : track today now qp body s = some s2) :
    ∀ n ∈ widgetNames, s2.fns n = WidgetFn.original n ∧ s2.fns n = s.fns n := by
  intro n hn
  simp only [track] at h
  cases hst : start_tracking today now s with
  | none => rw [hst] at h; exact absurd h (by simp)
  | some s1 =>
    rw [hst] at h
    injection h with h2
    subst h2
    constructor
    · show restore_widgets (body s1).fns n = _
      simp [restore_widgets, hn]
    · show restore_widgets (body s1).fns n = _
      simp [restore_widgets, hn, horig n hn]

/-- The widget entry-point table as it stands at module load: every entry
point is the original. -/
def fnsEx : StFns := fun n => WidgetFn.original n

/-- A process state at module load: counters as in `countsEx`, a fresh
session, unpatched entry points. -/
def appStateEx : AppState :=
  { counts := countsEx, session := freshSession, fns := fnsEx }

/-- The state after one full `track` run from `appStateEx` with an
effect-free body. -/
def trackResEx : AppState :=
  (track 5 0 [] id appStateEx).getD appStateEx

theorem claim8_track_restores_witness :
    trackResEx.fns "button" = WidgetFn.original "button" ∧
    trackResEx.fns "button" = appStateEx.fns "button" :=
  claim8_track_restores 5 0 [] id appStateEx trackResEx
    (by intro n hn; rfl) rfl "button" (by decide)

/-- `_track_user` writes only the session keys `user_tracked` and
`last_time`; `state_dic` and `state_dict` pass through unchanged. -/
theorem track_user_session_fields (today : Date) (now t : Int) (c c2 : Counts)
    (ss ss2 : Session) (b : Bool)
    (hlt : ss.last_time = some t) (hut : ss.user_tracked = some b)
    (h : track_user today now c ss = some (c2, ss2)) :
    ss2.state_dic = ss.state_dic ∧ ss2.state_dict = ss.state_dict := by
  unfold track_user at h
  rcases hgl : c.per_day.days.getLast? with _ | lastDay <;> rw [hgl] at h
  · simp at h
  · simp only [hlt, hut] at h
    repeat' split at h
    all_goals simp_all
    all_goals (obtain ⟨h1, h2⟩ := h; subst h2; exact ⟨rfl, rfl⟩)

/-- After the session-reset block both session keys `_track_user` reads are
present, whatever the incoming session was. -/
theorem session_reset_keys (now : Int) (ss : Session) :
    ∃ b t, (session_reset now ss).user_tracked = some b ∧
      (session_reset now ss).last_time = some t := by
  rcases hut : ss.user_tracked with _ | b <;>
    rcases hlt : ss.last_time with _ | t <;>
    rcases hdic : ss.state_dic with _ | u <;>
    simp [session_reset, hut, hlt, hdic]

/-- The session-reset block of `start_tracking`, on any session in which
`state_dic` is absent (i.e. on every session this module ever produces,
since no code assigns `state_dic`): `state_dict` is set to the empty dict
— whether or not it already existed — and `state_dic` stays absent. -/
theorem session_reset_state_dict (now : Int) (ss : Session)
    (hdic : ss.state_dic = none) :
    (session_reset now ss).state_dict = some [] ∧
    (session_reset now ss).state_dic = none := by
  simp only [session_reset]
  split_ifs <;> simp_all

/-- C9: on every call to `start_tracking` in a session where the key
`state_dic` is absent (which is always: no code ever assigns it, while the
guard tests it and the assignment writes `state_dict`), the session's
`state_dict` is reset to the empty dict regardless of whether it already
existed, so data stored under `state_dict` does not survive a rerun; and
`state_dic` is still never set. -/
theorem claim9_state_dict_clobbered (today : Date) (now : Int)
    (s s2 : AppState)
    (hdic : s.session.state_dic = none)
    (h : start_tracking today now s = some s2) :
    s2.session.state_dict = some [] ∧ s2.session.state_dic = none := by
  simp only [start_tracking] at h
  cases htu : track_user today now s.counts (session_reset now s.session) with
  | none => rw [htu] at h; exact absurd h (by simp)
  | some p =>
    obtain ⟨c, ss2⟩ := p
    rw [htu] at h
    injection h with h2
    subst h2
    obtain ⟨hrd, hrc⟩ := session_reset_state_dict now s.session hdic
    obtain ⟨b, t, hb, ht⟩ := session_reset_keys now s.session
    obtain ⟨hc, hd⟩ := track_user_session_fields today now t s.counts c
      (session_reset now s.session) ss2 b ht hb htu
    exact ⟨hd.trans hrd, hc.trans hrc⟩

/-- The state after `start_tracking` alone from `appStateEx`. -/
def startResEx : AppState :=
  (start_tracking 5 0 appStateEx).getD appStateEx

theorem claim9_state_dict_clobbered_witness :
    startResEx.session.state_dict = some [] ∧
    startResEx.session.state_dic = none :=
  claim9_state_dict_clobbered 5 0 appStateEx startResEx rfl rfl

end SA2
